import Mathlib

/-!
# Verification of the Kompute resource-orchestration layer

Shallow embedding of `src/Manager.cpp` (the resource registry, bulk
teardown, instance/device bootstrap and the `getIntersection` helper)
together with spec-modelled definitions for the Tensor/Sequence layer
whose implementation files are not part of this excerpt.  Each claim of
the specification is settled by one theorem below the definitions.
-/

set_option autoImplicit false

/-! ## `Manager::getIntersection` (src/Manager.cpp lines 190-203)

The C++ walks `v1` in order; for each `s1` it scans `v2` and on the first
`strcmp(s1, s2) == 0` hit pushes `s1` onto `result` and breaks out of the
inner loop.  `strcmp == 0` on C strings is exact character-by-character
equality, which is `String` equality (`==`) here. -/

def getIntersection : List String → List String → List String → List String
  | [], _, result => result
  | s1 :: rest, v2, result =>
    if v2.any (fun s2 => s1 == s2) then
      getIntersection rest v2 (result ++ [s1])
    else
      getIntersection rest v2 result

/-! ## Manager state and registry (src/Manager.cpp)

The `Manager` keeps per-kind registries of `std::weak_ptr`s
(`mManagedSequences`, `mManagedAlgorithms`, `mManagedTensors`).  We model
resources by numeric ids and a strong-reference-count map
`strong : Nat → Nat`; `weak_ptr::expired()` is `strong id = 0` and
`weak_ptr::lock()` succeeds exactly on non-expired ids. -/

structure ManagerState where
  manageResources : Bool
  hasDevice : Bool
  hasInstance : Bool
  freeDevice : Bool
  freeInstance : Bool
  managedSequences : List Nat
  managedAlgorithms : List Nat
  managedTensors : List Nat
deriving DecidableEq

/-- `strong id = 0` means every owner has released the resource, i.e. the
weak reference in the registry has expired. -/
def expired (strong : Nat → Nat) (id : Nat) : Bool :=
  strong id == 0

/-- `weak_ptr::lock()` succeeds iff the reference has not expired. -/
def aliveOf (strong : Nat → Nat) : Nat → Bool :=
  fun id => !(expired strong id)

/-- One observable destruction performed by `Manager::destroy`. -/
inductive DEvent where
  | destroySeq (id : Nat)
  | destroyAlgo (id : Nat)
  | destroyTensor (id : Nat)
  | destroyDevice
  | destroyInstance
deriving DecidableEq

/-- Embeds `Manager::destroy` (src/Manager.cpp lines 110-188): early
return on a null device; then, when `mManageResources` holds and the list
is non-empty, lock-and-destroy each sequence and clear the list; same for
algorithms, then tensors; destroy the device when `mFreeDevice`; early
return on a null instance; destroy the instance when `mFreeInstance`.
`alive id` says whether `weak_ptr::lock()` on that registry entry
succeeds.  Returns the new state and the ordered destruction events. -/
def Manager.destroy (alive : Nat → Bool) (s : ManagerState) :
    ManagerState × List DEvent :=
  if s.hasDevice = false then (s, []) else
  let seqGuard := s.manageResources && !s.managedSequences.isEmpty
  let seqEvs := if seqGuard then
      (s.managedSequences.filter alive).map DEvent.destroySeq else []
  let seqs1 := if seqGuard then [] else s.managedSequences
  let algoGuard := s.manageResources && !s.managedAlgorithms.isEmpty
  let algoEvs := if algoGuard then
      (s.managedAlgorithms.filter alive).map DEvent.destroyAlgo else []
  let algos1 := if algoGuard then [] else s.managedAlgorithms
  let tensorGuard := s.manageResources && !s.managedTensors.isEmpty
  let tensorEvs := if tensorGuard then
      (s.managedTensors.filter alive).map DEvent.destroyTensor else []
  let tensors1 := if tensorGuard then [] else s.managedTensors
  let devEvs := if s.freeDevice then [DEvent.destroyDevice] else []
  let hasDevice1 := if s.freeDevice then false else s.hasDevice
  let s1 : ManagerState :=
    { s with managedSequences := seqs1, managedAlgorithms := algos1,
             managedTensors := tensors1, hasDevice := hasDevice1 }
  if s.hasInstance = false then
    (s1, seqEvs ++ algoEvs ++ tensorEvs ++ devEvs)
  else
    let instEvs := if s.freeInstance then [DEvent.destroyInstance] else []
    let hasInstance1 := if s.freeInstance then false else s.hasInstance
    ({ s1 with hasInstance := hasInstance1 },
     seqEvs ++ algoEvs ++ tensorEvs ++ devEvs ++ instEvs)

/-- Embeds `Manager::clear` (src/Manager.cpp lines 397-418): when
`mManageResources` holds, `remove_if`/`erase` drops the expired entries of
each registry, i.e. keeps exactly the entries whose weak reference is
still alive. -/
def Manager.clear (alive : Nat → Bool) (s : ManagerState) : ManagerState :=
  if s.manageResources then
    { s with
      managedTensors := s.managedTensors.filter alive,
      managedAlgorithms := s.managedAlgorithms.filter alive,
      managedSequences := s.managedSequences.filter alive }
  else s

/-- Embeds `Manager::sequence` (src/Manager.cpp lines 658-675): a fresh
`Sequence` is created in a `shared_ptr` (strong count 1, held by the
returned pointer) and, only when `mManageResources` holds, a weak
reference to it is pushed onto `mManagedSequences`.  Registration touches
no strong count. -/
def Manager.sequenceCreate (strong : Nat → Nat) (s : ManagerState)
    (newId : Nat) : (Nat → Nat) × ManagerState :=
  (fun i => if i = newId then 1 else strong i,
   { s with managedSequences :=
       if s.manageResources then s.managedSequences ++ [newId]
       else s.managedSequences })

/-- The owner of a resource releases its strong reference. -/
def dropOwner (strong : Nat → Nat) (id : Nat) : Nat → Nat :=
  fun i => if i = id then strong i - 1 else strong i

/-- Destruction-order rank: sequences before algorithms before tensors
before the device before the instance. -/
def DEvent.rank : DEvent → Nat
  | .destroySeq _ => 0
  | .destroyAlgo _ => 1
  | .destroyTensor _ => 2
  | .destroyDevice => 3
  | .destroyInstance => 4

/-- The id of a sequence-destruction event, if it is one. -/
def DEvent.seqId : DEvent → Option Nat
  | .destroySeq i => some i
  | _ => none

/-- The id of an algorithm-destruction event, if it is one. -/
def DEvent.algoId : DEvent → Option Nat
  | .destroyAlgo i => some i
  | _ => none

/-- The id of a tensor-destruction event, if it is one. -/
def DEvent.tensorId : DEvent → Option Nat
  | .destroyTensor i => some i
  | _ => none

/-! ## Tensor (Buffer) and Sequence evaluation

The Tensor/Sequence/operation implementation files are not part of this
excerpt (only `Manager.cpp`, the umbrella header and two tests are), so
the definitions in this section are modelled from the spec. -/

/-- Error taxonomy of the spec (section 7). -/
inductive TError where
  | notAllocated
  | sizeMismatch
  | invalidResource
deriving DecidableEq

/-- Modelled from the spec: the Buffer (`kp::Tensor`) of spec sections 3
and 4.1 — a declared element count, a host-visible side, a device-local
side, and an allocation flag; the `Tensor` implementation file is missing
from the excerpt.  Elements are represented as integers: every value in
the claims is a small integer exactly representable in a 4-byte float. -/
structure Tensor where
  size : Nat
  hostData : List Int
  deviceData : List Int
  allocated : Bool
deriving DecidableEq

/-- Modelled from the spec: `writeHost(data)` — a direct host write. -/
def Tensor.writeHost (t : Tensor) (data : List Int) : Tensor :=
  { t with hostData := data }

/-- Modelled from the spec: `readHost()` returns the host-visible data. -/
def Tensor.readHost (t : Tensor) : List Int :=
  t.hostData

/-- Modelled from the spec: `syncToDevice()` fails with `NotAllocated`
when the allocations are missing, otherwise copies host-visible to
device-local memory (spec section 4.1). -/
def Tensor.syncToDevice (t : Tensor) : Except TError Tensor :=
  if t.allocated then .ok { t with deviceData := t.hostData }
  else .error .notAllocated

/-- Modelled from the spec: `syncToLocal()` is the mirror copy from
device-local to host-visible memory (spec section 4.1). -/
def Tensor.syncToLocal (t : Tensor) : Except TError Tensor :=
  if t.allocated then .ok { t with hostData := t.deviceData }
  else .error .notAllocated

/-- Modelled from the spec: `destroy()` releases both allocations (spec
section 4.1). -/
def Tensor.destroy (t : Tensor) : Tensor :=
  { t with hostData := [], deviceData := [], allocated := false }

/-- Modelled from the spec: `isInit()`/`isAllocated()` liveness query. -/
def Tensor.isInit (t : Tensor) : Bool :=
  t.allocated

/-- A tensor as built by `mgr.tensor({...})` in the tests: allocated on
construction with the given initial host data. -/
def tensorOfList (l : List Int) : Tensor :=
  { size := l.length, hostData := l,
    deviceData := List.replicate l.length 0, allocated := true }

/-- Modelled from the spec: the Pipeline (`kp::Algorithm`) reduced to the
fields the lifetime claims need — its bound tensor list and an
initialization flag; the implementation file is missing from the
excerpt. -/
structure AlgorithmObj where
  tensorRefs : List Nat
  init : Bool
deriving DecidableEq

/-- Modelled from the spec: `Algorithm::destroy()` releases the pipeline
objects; `isInit()` reports false afterwards. -/
def AlgorithmObj.destroy (a : AlgorithmObj) : AlgorithmObj :=
  { a with init := false }

/-- Modelled from the spec: the Pipeline liveness query. -/
def AlgorithmObj.isInit (a : AlgorithmObj) : Bool :=
  a.init

/-- Modelled from the spec: the Sequence reduced to the fields the
lifetime claims need — an initialization flag and a recording flag; the
implementation file is missing from the excerpt. -/
structure SequenceObj where
  init : Bool
  recording : Bool
deriving DecidableEq

/-- Modelled from the spec: `Sequence::destroy()` frees the command
buffer; `isInit()` reports false afterwards. -/
def SequenceObj.destroy (q : SequenceObj) : SequenceObj :=
  { q with init := false, recording := false }

/-- Modelled from the spec: the Sequence liveness query. -/
def SequenceObj.isInit (q : SequenceObj) : Bool :=
  q.init

/-- Modelled from the spec: the operations a Sequence in the two tests
records — `OpTensorSyncDevice`, `OpTensorSyncLocal` (each over a list of
tensor indices into the evaluation state) and the dispatch of the test
kernel of `src/test/TestOpShadersFromStringAndFile.cpp` over `n`
invocations. -/
inductive SeqOp where
  | syncDevice (idxs : List Nat)
  | syncLocal (idxs : List Nat)
  | dispatchCopyThenIndex (n : Nat)
deriving DecidableEq

/-- One invocation of the GLSL kernel embedded from
`src/test/TestOpShadersFromStringAndFile.cpp` lines 17-30:
`pb[index] = pa[index]; pa[index] = index;` — the read of `pa[index]`
happens before its overwrite. -/
def testShaderStep (s : List Int × List Int) (i : Nat) : List Int × List Int :=
  (s.1.set i (Int.ofNat i), s.2.set i (s.1.getD i 0))

/-- The dispatch of the test kernel over invocations `0 .. n-1`; the
invocations touch pairwise disjoint indices, so the sequential fold is
the unique parallel outcome. -/
def testShaderDispatch (n : Nat) (pa pb : List Int) : List Int × List Int :=
  (List.range n).foldl testShaderStep (pa, pb)

/-- Modelled from the spec: the effect of one recorded operation on the
device-side evaluation state (spec sections 4.3-4.4): the sync operations
transfer each listed tensor, the dispatch runs the test kernel on the
device-local data of tensors 0 and 1. -/
def evalOp (st : List Tensor) : SeqOp → Except TError (List Tensor)
  | .syncDevice idxs =>
    idxs.foldlM (fun acc i =>
      match acc.get? i with
      | none => .error .invalidResource
      | some t => (t.syncToDevice).map (fun t2 => acc.set i t2)) st
  | .syncLocal idxs =>
    idxs.foldlM (fun acc i =>
      match acc.get? i with
      | none => .error .invalidResource
      | some t => (t.syncToLocal).map (fun t2 => acc.set i t2)) st
  | .dispatchCopyThenIndex n =>
    match st.get? 0, st.get? 1 with
    | some ta, some tb =>
      if ta.allocated && tb.allocated then
        let r := testShaderDispatch n ta.deviceData tb.deviceData
        .ok ((st.set 0 { ta with deviceData := r.1 }).set 1
              { tb with deviceData := r.2 })
      else .error .invalidResource
    | _, _ => .error .invalidResource

/-- Modelled from the spec: one Sequence evaluation — record, submit and
await the ordered list of operations, applying each in recorded order
(spec section 4.4). -/
def evalSequence (ops : List SeqOp) (st : List Tensor) :
    Except TError (List Tensor) :=
  ops.foldlM evalOp st

/-- Modelled from the spec: the `Manager::tensorT` factory (declared in
the umbrella header, implementation missing from the excerpt) —
registration mirrors `Manager::sequence`: only when `mManageResources`
holds is a weak reference pushed onto the tensor registry. -/
def Manager.tensorCreate (strong : Nat → Nat) (s : ManagerState)
    (newId : Nat) : (Nat → Nat) × ManagerState :=
  (fun i => if i = newId then 1 else strong i,
   { s with managedTensors :=
       if s.manageResources then s.managedTensors ++ [newId]
       else s.managedTensors })

/-- Modelled from the spec: the `Manager::algorithm` factory (declared in
the umbrella header, implementation missing from the excerpt) —
registration mirrors `Manager::sequence`. -/
def Manager.algorithmCreate (strong : Nat → Nat) (s : ManagerState)
    (newId : Nat) : (Nat → Nat) × ManagerState :=
  (fun i => if i = newId then 1 else strong i,
   { s with managedAlgorithms :=
       if s.manageResources then s.managedAlgorithms ++ [newId]
       else s.managedAlgorithms })

/-! ## Instance and device bootstrap (src/Manager.cpp lines 205-656) -/

/-- A queue family as seen by `vk::getQueueFamilyProperties`: whether its
flags advertise compute support. -/
structure QueueFamily where
  computeSupport : Bool
deriving DecidableEq

/-- A physical device as enumerated by `enumeratePhysicalDevices`. -/
structure PhysicalDeviceModel where
  queueFamilies : List QueueFamily
deriving DecidableEq

/-- Embeds the queue-family search loop of `Manager::createDevice`
(src/Manager.cpp lines 473-485): walk the families from index `i`
upwards and stop at the first one whose flags contain compute. -/
def findComputeQueueFrom : Nat → List QueueFamily → Option Nat
  | _, [] => none
  | i, q :: rest =>
    if q.computeSupport then some i else findComputeQueueFrom (i + 1) rest

/-- Embeds the validation-and-selection front of `Manager::createDevice`
(src/Manager.cpp lines 420-494): throw when the instance is null; throw
when zero physical devices are enumerated; throw unless
`deviceCount > physicalDeviceIndex`; with an empty `familyQueueIndices`
pick the first compute-capable queue family of the selected device or
throw, otherwise keep the caller's list.  Error strings are abridged to
their leading words. -/
def createDeviceSelect (instPresent : Bool)
    (physicalDevices : List PhysicalDeviceModel)
    (physicalDeviceIndex : Nat) (familyQueueIndices : List Nat) :
    Except String (List Nat) :=
  if instPresent = false then
    .error "Kompute Manager instance is null"
  else if physicalDevices.length = 0 then
    .error "Failed to find GPUs with Vulkan support!"
  else if ¬ (physicalDevices.length > physicalDeviceIndex) then
    .error "There is no such physical index or device"
  else if familyQueueIndices.isEmpty then
    match findComputeQueueFrom 0
        (physicalDevices.getD physicalDeviceIndex
          { queueFamilies := [] }).queueFamilies with
    | none => .error "Compute queue is not supported"
    | some i => .ok [i]
  else .ok familyQueueIndices

/-- Observable bootstrap side effects of the `Manager` constructor. -/
inductive BootEvent where
  | instanceCreated
  | deviceCreated
  | instanceDestroyed
  | deviceDestroyed
deriving DecidableEq

/-- The environment the Vulkan loader presents to the constructor: the
outcome of each availability check and the enumerable devices. -/
structure VkEnv where
  instanceExtsOk : Bool
  instanceLayersOk : Bool
  instanceCreateOk : Bool
  debugCallbackOk : Bool
  physicalDevices : List PhysicalDeviceModel
  physicalDeviceIndex : Nat
  familyQueueIndices : List Nat
  deviceExtsOk : Bool
  deviceLayersOk : Bool
deriving DecidableEq

/-- Embeds `Manager::createInstance` (src/Manager.cpp lines 205-395):
throw if the requested extensions are not all available; throw if the
requested validation layers are not all available; throw if
`vk::createInstance` does not return success; after a successful creation
throw if the debug-utils callback cannot be installed — at that point the
created instance is not destroyed before the throw.  Returns the emitted
events and the error, if any; error strings abridged to their leading
words. -/
def createInstanceRun (env : VkEnv) : List BootEvent × Option String :=
  if env.instanceExtsOk = false then
    ([], some "Kompute Manager Failed to create Vulkan instance! extensions unavailable")
  else if env.instanceLayersOk = false then
    ([], some "Kompute Manager Failed to create Vulkan instance! validation layers unavailable")
  else if env.instanceCreateOk = false then
    ([], some "Kompute Manager Failed to create Vulkan instance! bad result")
  else if env.debugCallbackOk = false then
    ([BootEvent.instanceCreated], some "failed to set up debug callback!")
  else ([BootEvent.instanceCreated], none)

/-- Embeds `Manager::createDevice` (src/Manager.cpp lines 420-656) as run
from the constructor (instance present): the validation-and-selection
front, then the device extension and validation-layer checks, then the
device creation; no teardown is performed on any throwing path. -/
def createDeviceRun (env : VkEnv) : List BootEvent × Option String :=
  match createDeviceSelect true env.physicalDevices env.physicalDeviceIndex
      env.familyQueueIndices with
  | .error e => ([], some e)
  | .ok _ =>
    if env.deviceExtsOk = false then
      ([], some "Kompute Manager Failed to create Vulkan device! extensions unavailable")
    else if env.deviceLayersOk = false then
      ([], some "Kompute Manager Failed to create Vulkan device! validation layers unavailable")
    else ([BootEvent.deviceCreated], none)

/-- Embeds the managed `Manager` constructor (src/Manager.cpp lines
72-86): run `createInstance`, and unless it threw, run `createDevice`; a
throw propagates to the caller without any catch block, and C++ does not
run the destructor of an object whose constructor threw, so no teardown
code runs between the throw and the caller. -/
def managerConstruct (env : VkEnv) : List BootEvent × Option String :=
  match createInstanceRun env with
  | (evs, some e) => (evs, some e)
  | (evs, none) =>
    match createDeviceRun env with
    | (evs2, r) => (evs ++ evs2, r)

/-! ## Helper lemmas -/

/-- Unfolded form of the event trace of `Manager.destroy`. -/
theorem destroy_snd (alive : Nat → Bool) (s : ManagerState) :
    (Manager.destroy alive s).2 =
      if s.hasDevice = false then [] else
      (if s.manageResources && !s.managedSequences.isEmpty then
        (s.managedSequences.filter alive).map DEvent.destroySeq else []) ++
      ((if s.manageResources && !s.managedAlgorithms.isEmpty then
        (s.managedAlgorithms.filter alive).map DEvent.destroyAlgo else []) ++
      ((if s.manageResources && !s.managedTensors.isEmpty then
        (s.managedTensors.filter alive).map DEvent.destroyTensor else []) ++
      ((if s.freeDevice then [DEvent.destroyDevice] else []) ++
      (if s.hasInstance = false then []
       else if s.freeInstance then [DEvent.destroyInstance] else [])))) := by
  by_cases hd : s.hasDevice = false
  · simp [Manager.destroy, hd]
  · by_cases hi : s.hasInstance = false
    · simp [Manager.destroy, hd, hi, List.append_assoc]
    · simp [Manager.destroy, hd, hi, List.append_assoc]

/-- Unfolded form of the state left by `Manager.destroy`. -/
theorem destroy_fst (alive : Nat → Bool) (s : ManagerState) :
    (Manager.destroy alive s).1 =
      if s.hasDevice = false then s else
      { s with
        managedSequences :=
          if s.manageResources && !s.managedSequences.isEmpty then []
          else s.managedSequences,
        managedAlgorithms :=
          if s.manageResources && !s.managedAlgorithms.isEmpty then []
          else s.managedAlgorithms,
        managedTensors :=
          if s.manageResources && !s.managedTensors.isEmpty then []
          else s.managedTensors,
        hasDevice := if s.freeDevice then false else s.hasDevice,
        hasInstance :=
          if s.hasInstance = false then s.hasInstance
          else if s.freeInstance then false else s.hasInstance } := by
  by_cases hd : s.hasDevice = false
  · simp [Manager.destroy, hd]
  · by_cases hi : s.hasInstance = false
    · simp [Manager.destroy, hd, hi]
    · simp [Manager.destroy, hd, hi]

/-- A list of events of one constant rank is sorted by rank. -/
theorem pairwise_rank_const (c : Nat) (l : List DEvent)
    (h : ∀ e ∈ l, DEvent.rank e = c) :
    l.Pairwise (fun a b => DEvent.rank a ≤ DEvent.rank b) := by
  induction l with
  | nil => exact List.Pairwise.nil
  | cons x xs ih =>
    refine List.Pairwise.cons (fun b hb => ?_)
      (ih fun e he => h e (List.mem_cons_of_mem x he))
    rw [h x (List.mem_cons_self x xs), h b (List.mem_cons_of_mem x hb)]

/-- Prepending a constant-rank block below a rank-sorted list keeps the
result rank-sorted. -/
theorem pairwise_rank_block (c : Nat) (l1 l2 : List DEvent)
    (h1 : ∀ e ∈ l1, DEvent.rank e = c)
    (h2 : l2.Pairwise (fun a b => DEvent.rank a ≤ DEvent.rank b))
    (hc : ∀ e ∈ l2, c ≤ DEvent.rank e) :
    (l1 ++ l2).Pairwise (fun a b => DEvent.rank a ≤ DEvent.rank b) :=
  List.pairwise_append.mpr
    ⟨pairwise_rank_const c l1 h1, h2,
     fun a ha b hb => by rw [h1 a ha]; exact hc b hb⟩

/-- Five blocks of ranks `0..4` concatenate to a rank-sorted trace. -/
theorem pairwise_rank_segments (e0 e1 e2 e3 e4 : List DEvent)
    (h0 : ∀ e ∈ e0, DEvent.rank e = 0)
    (h1 : ∀ e ∈ e1, DEvent.rank e = 1)
    (h2 : ∀ e ∈ e2, DEvent.rank e = 2)
    (h3 : ∀ e ∈ e3, DEvent.rank e = 3)
    (h4 : ∀ e ∈ e4, DEvent.rank e = 4) :
    (e0 ++ (e1 ++ (e2 ++ (e3 ++ e4)))).Pairwise
      (fun a b => DEvent.rank a ≤ DEvent.rank b) := by
  have p34 := pairwise_rank_block 3 e3 e4 h3 (pairwise_rank_const 4 e4 h4)
    (fun e he => by rw [h4 e he]; omega)
  have lb34 : ∀ e ∈ e3 ++ e4, 2 ≤ DEvent.rank e := by
    intro e he
    rcases List.mem_append.mp he with h | h
    · rw [h3 e h]; omega
    · rw [h4 e h]; omega
  have p234 := pairwise_rank_block 2 e2 (e3 ++ e4) h2 p34 lb34
  have lb234 : ∀ e ∈ e2 ++ (e3 ++ e4), 1 ≤ DEvent.rank e := by
    intro e he
    rcases List.mem_append.mp he with h | h
    · rw [h2 e h]; omega
    · have := lb34 e h; omega
  have p1234 := pairwise_rank_block 1 e1 (e2 ++ (e3 ++ e4)) h1 p234 lb234
  have lb1234 : ∀ e ∈ e1 ++ (e2 ++ (e3 ++ e4)), 0 ≤ DEvent.rank e := by
    intro e _; omega
  exact pairwise_rank_block 0 e0 (e1 ++ (e2 ++ (e3 ++ e4))) h0 p1234 lb1234

/-- Membership in `if p then l else []` implies membership in `l`. -/
theorem mem_ite_nil {α : Type} {p : Prop} [Decidable p] {l : List α} {e : α}
    (he : e ∈ if p then l else ([] : List α)) : e ∈ l := by
  split at he
  · exact he
  · cases he

/-- `filterMap` of an injected map collapses to nothing when the
projection never fires. -/
theorem filterMap_map_none {α β γ : Type} (f : β → Option γ) (g : α → β)
    (l : List α) (h : ∀ a, f (g a) = none) : (l.map g).filterMap f = [] := by
  induction l with
  | nil => rfl
  | cons x xs ih => simp [List.filterMap_cons, h, ih]

/-- `filterMap` of an injected map collapses to the identity when the
projection inverts the injection. -/
theorem filterMap_map_id {α β : Type} (f : β → Option α) (g : α → β)
    (l : List α) (h : ∀ a, f (g a) = some a) : (l.map g).filterMap f = l := by
  induction l with
  | nil => rfl
  | cons x xs ih => simp [List.filterMap_cons, h, ih]

/-- The projection of a kind-tagged registry block recovers the live
entries. -/
theorem filterMap_segment_eq (mr : Bool) (ids : List Nat)
    (alive : Nat → Bool) (mk : Nat → DEvent) (f : DEvent → Option Nat)
    (hf : ∀ i, f (mk i) = some i) (hmr : mr = true) :
    (if (mr && !ids.isEmpty) = true then
        (ids.filter alive).map mk else []).filterMap f = ids.filter alive := by
  subst hmr
  by_cases h : ids.isEmpty
  · rw [List.isEmpty_iff.mp h]
    simp
  · simp only [Bool.true_and, h]
    simp [filterMap_map_id f mk _ hf]

/-- A kind-tagged registry block projects to nothing under another
kind's projection. -/
theorem filterMap_segment_none {g : Bool} (ids : List Nat)
    (alive : Nat → Bool) (mk : Nat → DEvent) (f : DEvent → Option Nat)
    (hf : ∀ i, f (mk i) = none) :
    (if g = true then (ids.filter alive).map mk else []).filterMap f = [] := by
  split
  · exact filterMap_map_none f mk _ hf
  · rfl

/-- A live member of a duplicate-free registry is destroyed exactly
once. -/
theorem count_filter_live (l : List Nat) (alive : Nat → Bool) (id : Nat)
    (hnd : l.Nodup) (ha : alive id = true) (hm : id ∈ l) :
    (l.filter alive).count id = 1 :=
  List.count_eq_one_of_mem (hnd.filter alive) (List.mem_filter.mpr ⟨hm, ha⟩)

/-- Claim C9: `Manager::getIntersection(v1, v2, result)` appends to `result`
exactly those elements of `v1` whose string contents equal the contents of
at least one element of `v2`, in the order they appear in `v1`, each
element of `v1` contributing at most one entry even if it matches several
elements of `v2` (the inner loop breaks after the first match); this is
precisely `result ++ v1.filter (· matches some element of v2)`. -/
theorem getIntersection_eq_append_filter (v1 v2 result : List String) :
    getIntersection v1 v2 result =
      result ++ v1.filter (fun s1 => v2.any (fun s2 => s1 == s2)) := by
  induction v1 generalizing result with
  | nil => simp [getIntersection]
  | cons s1 rest ih =>
    by_cases h : v2.any (fun s2 => s1 == s2)
    · simp [getIntersection, h, ih]
    · simp [getIntersection, h, ih]

/-- Claim C3: `Manager::destroy` destroys resource kinds in the order all
still-live Sequences, then all still-live Pipelines (Algorithms), then
all still-live Buffers (Tensors), and only then the device (and finally
the instance): the emitted destruction trace is sorted by kind rank, so
no resource of a later kind is destroyed before all live resources of an
earlier kind. -/
theorem destroy_respects_kind_order (alive : Nat → Bool) (s : ManagerState) :
    ((Manager.destroy alive s).2).Pairwise
      (fun a b => DEvent.rank a ≤ DEvent.rank b) := by
  rw [destroy_snd]
  by_cases hd : s.hasDevice = false
  · simp [hd]
  · rw [if_neg hd]
    refine pairwise_rank_segments _ _ _ _ _ ?_ ?_ ?_ ?_ ?_
    · intro e he
      rcases List.mem_map.mp (mem_ite_nil he) with ⟨i, _, rfl⟩
      rfl
    · intro e he
      rcases List.mem_map.mp (mem_ite_nil he) with ⟨i, _, rfl⟩
      rfl
    · intro e he
      rcases List.mem_map.mp (mem_ite_nil he) with ⟨i, _, rfl⟩
      rfl
    · intro e he
      rw [List.mem_singleton.mp (mem_ite_nil he)]
      rfl
    · intro e he
      split at he
      · cases he
      · rw [List.mem_singleton.mp (mem_ite_nil he)]
        rfl

/-- Claim C4: in the normal operating state (non-null device, resource
management enabled), `Manager::destroy` calls `destroy()` via a
successful `weak_ptr::lock()` exactly once on each still-live registry
member of each kind — the destroy calls of a kind are precisely its live
entries in registry order, so expired members are skipped without error
and (for a duplicate-free registry) each live member is destroyed exactly
once — and afterwards every resource registry is empty. -/
theorem destroy_live_members_exactly_once (alive : Nat → Bool)
    (s : ManagerState) (hDev : s.hasDevice = true)
    (hMR : s.manageResources = true) :
    (Manager.destroy alive s).1.managedSequences = [] ∧
    (Manager.destroy alive s).1.managedAlgorithms = [] ∧
    (Manager.destroy alive s).1.managedTensors = [] ∧
    ((Manager.destroy alive s).2).filterMap DEvent.seqId =
      s.managedSequences.filter alive ∧
    ((Manager.destroy alive s).2).filterMap DEvent.algoId =
      s.managedAlgorithms.filter alive ∧
    ((Manager.destroy alive s).2).filterMap DEvent.tensorId =
      s.managedTensors.filter alive ∧
    (∀ id, s.managedTensors.Nodup → alive id = true →
      id ∈ s.managedTensors →
      (((Manager.destroy alive s).2).filterMap DEvent.tensorId).count id
        = 1) := by
  have hd : ¬ (s.hasDevice = false) := by simp [hDev]
  have hreg : ∀ (l : List Nat),
      (if (s.manageResources && !l.isEmpty) = true then ([] : List Nat)
       else l) = [] := by
    intro l
    cases l with
    | nil =>
      split
      · rfl
      · rfl
    | cons x xs => simp [hMR]
  have hsnd := destroy_snd alive s
  rw [if_neg hd] at hsnd
  have hseq : ((Manager.destroy alive s).2).filterMap DEvent.seqId =
      s.managedSequences.filter alive := by
    rw [hsnd]
    simp only [List.filterMap_append]
    rw [filterMap_segment_eq s.manageResources _ alive DEvent.destroySeq
        DEvent.seqId (fun i => rfl) hMR]
    rw [filterMap_segment_none _ alive DEvent.destroyAlgo DEvent.seqId
        (fun i => rfl)]
    rw [filterMap_segment_none _ alive DEvent.destroyTensor DEvent.seqId
        (fun i => rfl)]
    have hdev : (if s.freeDevice = true then [DEvent.destroyDevice]
        else []).filterMap DEvent.seqId = [] := by
      split
      · rfl
      · rfl
    have hinst : (if s.hasInstance = false then []
        else if s.freeInstance = true then [DEvent.destroyInstance]
        else []).filterMap DEvent.seqId = [] := by
      split
      · rfl
      · split
        · rfl
        · rfl
    rw [hdev, hinst]
    simp
  have halgo : ((Manager.destroy alive s).2).filterMap DEvent.algoId =
      s.managedAlgorithms.filter alive := by
    rw [hsnd]
    simp only [List.filterMap_append]
    rw [filterMap_segment_none _ alive DEvent.destroySeq DEvent.algoId
        (fun i => rfl)]
    rw [filterMap_segment_eq s.manageResources _ alive DEvent.destroyAlgo
        DEvent.algoId (fun i => rfl) hMR]
    rw [filterMap_segment_none _ alive DEvent.destroyTensor DEvent.algoId
        (fun i => rfl)]
    have hdev : (if s.freeDevice = true then [DEvent.destroyDevice]
        else []).filterMap DEvent.algoId = [] := by
      split
      · rfl
      · rfl
    have hinst : (if s.hasInstance = false then []
        else if s.freeInstance = true then [DEvent.destroyInstance]
        else []).filterMap DEvent.algoId = [] := by
      split
      · rfl
      · split
        · rfl
        · rfl
    rw [hdev, hinst]
    simp
  have htens : ((Manager.destroy alive s).2).filterMap DEvent.tensorId =
      s.managedTensors.filter alive := by
    rw [hsnd]
    simp only [List.filterMap_append]
    rw [filterMap_segment_none _ alive DEvent.destroySeq DEvent.tensorId
        (fun i => rfl)]
    rw [filterMap_segment_none _ alive DEvent.destroyAlgo DEvent.tensorId
        (fun i => rfl)]
    rw [filterMap_segment_eq s.manageResources _ alive DEvent.destroyTensor
        DEvent.tensorId (fun i => rfl) hMR]
    have hdev : (if s.freeDevice = true then [DEvent.destroyDevice]
        else []).filterMap DEvent.tensorId = [] := by
      split
      · rfl
      · rfl
    have hinst : (if s.hasInstance = false then []
        else if s.freeInstance = true then [DEvent.destroyInstance]
        else []).filterMap DEvent.tensorId = [] := by
      split
      · rfl
      · split
        · rfl
        · rfl
    rw [hdev, hinst]
    simp
  refine ⟨?_, ?_, ?_, hseq, halgo, htens, ?_⟩
  · rw [destroy_fst, if_neg hd]
    exact hreg s.managedSequences
  · rw [destroy_fst, if_neg hd]
    exact hreg s.managedAlgorithms
  · rw [destroy_fst, if_neg hd]
    exact hreg s.managedTensors
  · intro id hnd ha hm
    rw [htens]
    exact count_filter_live s.managedTensors alive id hnd ha hm

/-- Closed witness for claim C4 at a concrete manager state with one
live and one expired tensor. -/
theorem destroy_live_members_exactly_once_witness :
    (Manager.destroy (fun id => id == 3)
        { manageResources := true, hasDevice := true, hasInstance := true,
          freeDevice := true, freeInstance := true,
          managedSequences := [1], managedAlgorithms := [2],
          managedTensors := [3, 4] }).1.managedTensors = [] ∧
    ((Manager.destroy (fun id => id == 3)
        { manageResources := true, hasDevice := true, hasInstance := true,
          freeDevice := true, freeInstance := true,
          managedSequences := [1], managedAlgorithms := [2],
          managedTensors := [3, 4] }).2).filterMap DEvent.tensorId
      = [3, 4].filter (fun id => id == 3) := by
  have h := destroy_live_members_exactly_once (fun id => id == 3)
    { manageResources := true, hasDevice := true, hasInstance := true,
      freeDevice := true, freeInstance := true,
      managedSequences := [1], managedAlgorithms := [2],
      managedTensors := [3, 4] } (by rfl) (by rfl)
  exact ⟨h.2.2.1, h.2.2.2.2.2.1⟩

/-- Claim C5: a second `destroy()` after a first one is safe and has no
observable effect — for the `Manager` (from the code: the second run of
`Manager::destroy` leaves the state unchanged and emits no destruction
events in every case) and, modelled from the spec, for Buffers,
Pipelines and Sequences, whose liveness queries `isInit()` report false
after the first `destroy()`. -/
theorem second_destroy_is_noop :
    (∀ (alive alive2 : Nat → Bool) (s : ManagerState),
        Manager.destroy alive2 (Manager.destroy alive s).1 =
          ((Manager.destroy alive s).1, [])) ∧
    (∀ t : Tensor, t.destroy.destroy = t.destroy ∧
        t.destroy.isInit = false) ∧
    (∀ a : AlgorithmObj, a.destroy.destroy = a.destroy ∧
        a.destroy.isInit = false) ∧
    (∀ q : SequenceObj, q.destroy.destroy = q.destroy ∧
        q.destroy.isInit = false) := by
  refine ⟨?_, fun t => ⟨rfl, rfl⟩, fun a => ⟨rfl, rfl⟩,
    fun q => ⟨rfl, rfl⟩⟩
  intro alive alive2 s
  obtain ⟨mr, hd, hi, fd, fi, seqs, algos, tens⟩ := s
  cases mr <;> cases hd <;> cases hi <;> cases fd <;> cases fi <;>
    cases seqs <;> cases algos <;> cases tens <;>
      simp [Manager.destroy]

/-- Claim C6: the registry holds only weak, non-owning references —
registering a sequence changes no other resource's strong count, and once
the owner drops its reference the registered resource is expired even
though its entry is still in the registry; `Manager::clear` removes
exactly the expired entries of every resource kind and keeps all live
entries. -/
theorem registry_nonowning_clear_prunes :
    (∀ (strong : Nat → Nat) (s : ManagerState) (newId i : Nat),
        i ≠ newId → (Manager.sequenceCreate strong s newId).1 i = strong i) ∧
    (∀ (strong : Nat → Nat) (s : ManagerState) (newId : Nat),
        s.manageResources = true →
        newId ∈ (Manager.sequenceCreate strong s newId).2.managedSequences ∧
        expired (dropOwner (Manager.sequenceCreate strong s newId).1 newId)
          newId = true) ∧
    (∀ (alive : Nat → Bool) (s : ManagerState), s.manageResources = true →
        (Manager.clear alive s).managedTensors =
          s.managedTensors.filter alive ∧
        (Manager.clear alive s).managedAlgorithms =
          s.managedAlgorithms.filter alive ∧
        (Manager.clear alive s).managedSequences =
          s.managedSequences.filter alive) := by
  refine ⟨?_, ?_, ?_⟩
  · intro strong s newId i hne
    simp [Manager.sequenceCreate, hne]
  · intro strong s newId hMR
    constructor
    · simp [Manager.sequenceCreate, hMR]
    · simp [Manager.sequenceCreate, dropOwner, expired]
  · intro alive s hMR
    refine ⟨?_, ?_, ?_⟩ <;> simp [Manager.clear, hMR]

/-- Closed witness for claim C6: registering sequence 5 leaves the strong
count of resource 3 untouched; after the owner of 5 drops it, entry 5 is
expired and `clear` prunes it while keeping the live entry 1. -/
theorem registry_nonowning_clear_prunes_witness :
    (Manager.sequenceCreate (fun _ => 2)
        { manageResources := true, hasDevice := true, hasInstance := true,
          freeDevice := true, freeInstance := true,
          managedSequences := [1], managedAlgorithms := [],
          managedTensors := [] } 5).1 3 = 2 ∧
    5 ∈ (Manager.sequenceCreate (fun _ => 2)
        { manageResources := true, hasDevice := true, hasInstance := true,
          freeDevice := true, freeInstance := true,
          managedSequences := [1], managedAlgorithms := [],
          managedTensors := [] } 5).2.managedSequences ∧
    expired (dropOwner (Manager.sequenceCreate (fun _ => 2)
        { manageResources := true, hasDevice := true, hasInstance := true,
          freeDevice := true, freeInstance := true,
          managedSequences := [1], managedAlgorithms := [],
          managedTensors := [] } 5).1 5) 5 = true ∧
    (Manager.clear (fun id => id == 1)
        { manageResources := true, hasDevice := true, hasInstance := true,
          freeDevice := true, freeInstance := true,
          managedSequences := [1, 5], managedAlgorithms := [],
          managedTensors := [] }).managedSequences = [1] := by
  refine ⟨registry_nonowning_clear_prunes.1 (fun _ => 2)
      { manageResources := true, hasDevice := true, hasInstance := true,
        freeDevice := true, freeInstance := true,
        managedSequences := [1], managedAlgorithms := [],
        managedTensors := [] } 5 3 (by decide),
    (registry_nonowning_clear_prunes.2.1 (fun _ => 2)
      { manageResources := true, hasDevice := true, hasInstance := true,
        freeDevice := true, freeInstance := true,
        managedSequences := [1], managedAlgorithms := [],
        managedTensors := [] } 5 rfl).1,
    (registry_nonowning_clear_prunes.2.1 (fun _ => 2)
      { manageResources := true, hasDevice := true, hasInstance := true,
        freeDevice := true, freeInstance := true,
        managedSequences := [1], managedAlgorithms := [],
        managedTensors := [] } 5 rfl).2,
    ?_⟩
  exact ((registry_nonowning_clear_prunes.2.2 (fun id => id == 1)
      { manageResources := true, hasDevice := true, hasInstance := true,
        freeDevice := true, freeInstance := true,
        managedSequences := [1, 5], managedAlgorithms := [],
        managedTensors := [] } rfl).2.2).trans (by decide)

/-- Claim C8 counterexample: a `Manager` wrapping externally provided
Vulkan objects has `mManageResources = false`, and `Manager::sequence`
then skips the registration `push_back` — the freshly constructed
sequence 7 is not reachable from the registry, refuting the claim that
every constructed Sequence performs a registration call. -/
theorem sequence_unregistered_without_managing :
    ¬ (7 ∈ (Manager.sequenceCreate (fun _ => 0)
        { manageResources := false, hasDevice := true, hasInstance := true,
          freeDevice := false, freeInstance := false,
          managedSequences := [], managedAlgorithms := [],
          managedTensors := [] } 7).2.managedSequences) := by
  decide

/-- Claim C8 (amended): every Buffer, Pipeline and Sequence constructed
through a `Manager` that manages its resources (`mManageResources` true,
the self-initializing constructors) performs a per-resource-kind
registration call into the registry, so bulk teardown can reach it; a
`Manager` wrapping an externally provided device does not register. -/
theorem construction_registers_when_managing (strong : Nat → Nat)
    (s : ManagerState) (newId : Nat) (hMR : s.manageResources = true) :
    newId ∈ (Manager.sequenceCreate strong s newId).2.managedSequences ∧
    newId ∈ (Manager.tensorCreate strong s newId).2.managedTensors ∧
    newId ∈ (Manager.algorithmCreate strong s newId).2.managedAlgorithms := by
  refine ⟨?_, ?_, ?_⟩ <;>
    simp [Manager.sequenceCreate, Manager.tensorCreate,
      Manager.algorithmCreate, hMR]

/-- Closed witness for the amended claim C8 at a concrete managing
state. -/
theorem construction_registers_when_managing_witness :
    7 ∈ (Manager.sequenceCreate (fun _ => 0)
        { manageResources := true, hasDevice := true, hasInstance := true,
          freeDevice := true, freeInstance := true,
          managedSequences := [], managedAlgorithms := [],
          managedTensors := [] } 7).2.managedSequences ∧
    7 ∈ (Manager.tensorCreate (fun _ => 0)
        { manageResources := true, hasDevice := true, hasInstance := true,
          freeDevice := true, freeInstance := true,
          managedSequences := [], managedAlgorithms := [],
          managedTensors := [] } 7).2.managedTensors :=
  ⟨(construction_registers_when_managing (fun _ => 0)
      { manageResources := true, hasDevice := true, hasInstance := true,
        freeDevice := true, freeInstance := true,
        managedSequences := [], managedAlgorithms := [],
        managedTensors := [] } 7 rfl).1,
   (construction_registers_when_managing (fun _ => 0)
      { manageResources := true, hasDevice := true, hasInstance := true,
        freeDevice := true, freeInstance := true,
        managedSequences := [], managedAlgorithms := [],
        managedTensors := [] } 7 rfl).2.1⟩

/-- Claim C1: with `A = [3,4,5]` and `B = [0,0,0]` (3 elements each) and
the test kernel that copies `A` into `B` and then sets `A[i] = i`,
evaluating `SyncDevice([A,B]) ; Dispatch ; SyncLocal([A,B])` through one
Sequence leaves the host-readable values `A = [0,1,2]` and
`B = [3,4,5]`. -/
theorem concrete_two_buffer_scenario :
    (evalSequence
        [SeqOp.syncDevice [0, 1], SeqOp.dispatchCopyThenIndex 3,
         SeqOp.syncLocal [0, 1]]
        [tensorOfList [3, 4, 5], tensorOfList [0, 0, 0]]).map
      (fun st => st.map Tensor.readHost) =
      Except.ok [[0, 1, 2], [3, 4, 5]] := by
  rfl

/-- Claim C2: for every allocated buffer and every data of matching
declared length, `writeHost(data); syncToDevice(); syncToLocal();
readHost()` through one Sequence evaluation returns exactly `data`. -/
theorem roundtrip_is_identity (t : Tensor) (data : List Int)
    (hAlloc : t.allocated = true) (hLen : data.length = t.size) :
    (evalSequence [SeqOp.syncDevice [0], SeqOp.syncLocal [0]]
        [t.writeHost data]).map (fun st => st.map Tensor.readHost) =
      Except.ok [data] := by
  obtain ⟨sz, host, dev, alloc⟩ := t
  subst hAlloc
  rfl

/-- Closed witness for claim C2 on a two-element buffer. -/
theorem roundtrip_is_identity_witness :
    (evalSequence [SeqOp.syncDevice [0], SeqOp.syncLocal [0]]
        [(tensorOfList [1, 2]).writeHost [7, 9]]).map
      (fun st => st.map Tensor.readHost) = Except.ok [[7, 9]] :=
  roundtrip_is_identity (tensorOfList [1, 2]) [7, 9] rfl rfl

/-- Every event of `Manager::createInstance` is an instance creation. -/
theorem createInstanceRun_events (env : VkEnv) :
    ∀ ev ∈ (createInstanceRun env).1, ev = BootEvent.instanceCreated := by
  unfold createInstanceRun
  split_ifs <;> simp

/-- Every event of `Manager::createDevice` is a device creation. -/
theorem createDeviceRun_events (env : VkEnv) :
    ∀ ev ∈ (createDeviceRun env).1, ev = BootEvent.deviceCreated := by
  unfold createDeviceRun
  split
  · simp
  · split_ifs <;> simp

/-- Every error string of the device selection front is non-empty. -/
theorem createDeviceSelect_error_nonempty (instPresent : Bool)
    (devs : List PhysicalDeviceModel) (idx : Nat) (fams : List Nat)
    (e : String)
    (h : createDeviceSelect instPresent devs idx fams = Except.error e) :
    e ≠ "" := by
  unfold createDeviceSelect at h
  split_ifs at h <;>
    first
      | (injection h with h2; subst h2; decide)
      | (split at h <;>
          first
            | (injection h with h2; subst h2; decide)
            | (cases h))

/-- Every error string of `Manager::createInstance` is non-empty. -/
theorem createInstanceRun_error_nonempty (env : VkEnv) (e : String)
    (h : (createInstanceRun env).2 = some e) : e ≠ "" := by
  unfold createInstanceRun at h
  split_ifs at h <;>
    simp only [Option.some.injEq] at h <;> subst h <;> decide

/-- Every error string of `Manager::createDevice` is non-empty. -/
theorem createDeviceRun_error_nonempty (env : VkEnv) (e : String)
    (h : (createDeviceRun env).2 = some e) : e ≠ "" := by
  unfold createDeviceRun at h
  split at h
  · rename_i e0 heq
    simp only [Option.some.injEq] at h
    subst h
    exact createDeviceSelect_error_nonempty true env.physicalDevices
      env.physicalDeviceIndex env.familyQueueIndices e0 heq
  · split_ifs at h <;>
      simp only [Option.some.injEq] at h <;> subst h <;> decide

/-- Claim C7 counterexample: in an environment where instance creation
fully succeeds but zero physical devices are enumerated, the managed
`Manager` constructor aborts with an error, yet the already-created
Vulkan instance is NOT destroyed before the error returns — the
construction throw propagates without any teardown (C++ runs no
destructor for an object whose constructor threw), refuting "the object
is fully torn down before the error returns". -/
theorem construction_failure_leaves_instance :
    ((managerConstruct
        { instanceExtsOk := true, instanceLayersOk := true,
          instanceCreateOk := true, debugCallbackOk := true,
          physicalDevices := [], physicalDeviceIndex := 0,
          familyQueueIndices := [], deviceExtsOk := true,
          deviceLayersOk := true }).2).isSome = true ∧
    BootEvent.instanceCreated ∈ (managerConstruct
        { instanceExtsOk := true, instanceLayersOk := true,
          instanceCreateOk := true, debugCallbackOk := true,
          physicalDevices := [], physicalDeviceIndex := 0,
          familyQueueIndices := [], deviceExtsOk := true,
          deviceLayersOk := true }).1 ∧
    ¬ (BootEvent.instanceDestroyed ∈ (managerConstruct
        { instanceExtsOk := true, instanceLayersOk := true,
          instanceCreateOk := true, debugCallbackOk := true,
          physicalDevices := [], physicalDeviceIndex := 0,
          familyQueueIndices := [], deviceExtsOk := true,
          deviceLayersOk := true }).1) := by
  decide

/-- Claim C7 (amended): whenever construction of the managed `Manager`
fails, the call aborts with a descriptive (non-empty) error; however, the
partially-constructed object is not torn down before the error returns —
no destruction event is ever emitted on a failing path, so resources
created by earlier completed steps (in particular the instance, when
device creation fails) remain allocated. -/
theorem construction_failure_error_without_teardown (env : VkEnv)
    (e : String) (h : (managerConstruct env).2 = some e) :
    e ≠ "" ∧
    BootEvent.instanceDestroyed ∉ (managerConstruct env).1 ∧
    BootEvent.deviceDestroyed ∉ (managerConstruct env).1 := by
  have hev : ∀ ev ∈ (managerConstruct env).1,
      ev = BootEvent.instanceCreated ∨ ev = BootEvent.deviceCreated := by
    intro ev hevm
    unfold managerConstruct at hevm
    rcases hi : createInstanceRun env with ⟨evs, err⟩
    rw [hi] at hevm
    cases err with
    | some e0 =>
      have := createInstanceRun_events env ev
      rw [hi] at this
      exact Or.inl (this hevm)
    | none =>
      rcases hd : createDeviceRun env with ⟨evs2, r⟩
      rw [hd] at hevm
      rcases List.mem_append.mp hevm with hm | hm
      · have := createInstanceRun_events env ev
        rw [hi] at this
        exact Or.inl (this hm)
      · have := createDeviceRun_events env ev
        rw [hd] at this
        exact Or.inr (this hm)
  refine ⟨?_, ?_, ?_⟩
  · unfold managerConstruct at h
    rcases hi : createInstanceRun env with ⟨evs, err⟩
    rw [hi] at h
    cases err with
    | some e0 =>
      simp only [Option.some.injEq] at h
      subst h
      have := createInstanceRun_error_nonempty env e0
      rw [hi] at this
      exact this rfl
    | none =>
      rcases hd : createDeviceRun env with ⟨evs2, r⟩
      rw [hd] at h
      have := createDeviceRun_error_nonempty env e
      rw [hd] at this
      exact this h
  · intro hmem
    rcases hev _ hmem with h2 | h2 <;> cases h2
  · intro hmem
    rcases hev _ hmem with h2 | h2 <;> cases h2

/-- Closed witness for the amended claim C7 in the zero-device
environment. -/
theorem construction_failure_error_without_teardown_witness :
    ("Failed to find GPUs with Vulkan support!" ≠ "") ∧
    BootEvent.instanceDestroyed ∉ (managerConstruct
        { instanceExtsOk := true, instanceLayersOk := true,
          instanceCreateOk := true, debugCallbackOk := true,
          physicalDevices := [], physicalDeviceIndex := 0,
          familyQueueIndices := [], deviceExtsOk := true,
          deviceLayersOk := true }).1 ∧
    BootEvent.deviceDestroyed ∉ (managerConstruct
        { instanceExtsOk := true, instanceLayersOk := true,
          instanceCreateOk := true, debugCallbackOk := true,
          physicalDevices := [], physicalDeviceIndex := 0,
          familyQueueIndices := [], deviceExtsOk := true,
          deviceLayersOk := true }).1 :=
  construction_failure_error_without_teardown
    { instanceExtsOk := true, instanceLayersOk := true,
      instanceCreateOk := true, debugCallbackOk := true,
      physicalDevices := [], physicalDeviceIndex := 0,
      familyQueueIndices := [], deviceExtsOk := true,
      deviceLayersOk := true } "Failed to find GPUs with Vulkan support!"
    (by rfl)

/-- If no queue family advertises compute, the search loop finds
nothing. -/
theorem findComputeFrom_eq_none (l : List QueueFamily)
    (h : ∀ q ∈ l, q.computeSupport = false) :
    ∀ i, findComputeQueueFrom i l = none := by
  induction l with
  | nil => intro i; rfl
  | cons q rest ih =>
    intro i
    have hq := h q (List.mem_cons_self q rest)
    simp only [findComputeQueueFrom, hq, Bool.false_eq_true, if_false]
    exact ih (fun q2 hq2 => h q2 (List.mem_cons_of_mem q hq2)) (i + 1)

/-- A successful search starting at `i` returns the lowest index of a
compute-capable family: the family at position `k - i` supports compute
and every earlier position does not. -/
theorem findComputeFrom_some_spec (l : List QueueFamily) :
    ∀ i k, findComputeQueueFrom i l = some k →
      i ≤ k ∧
      (∃ q, l.get? (k - i) = some q ∧ q.computeSupport = true) ∧
      (∀ j, j < k - i → ∀ q, l.get? j = some q →
        q.computeSupport = false) := by
  induction l with
  | nil =>
    intro i k h
    cases h
  | cons q rest ih =>
    intro i k h
    by_cases hq : q.computeSupport = true
    · rw [findComputeQueueFrom, if_pos hq] at h
      injection h with h2
      subst h2
      refine ⟨le_refl i, ⟨q, by simp, hq⟩, ?_⟩
      intro j hj q2 _
      omega
    · rw [findComputeQueueFrom, if_neg hq] at h
      obtain ⟨hik, ⟨q2, hget, hsup⟩, hmin⟩ := ih (i + 1) k h
      rw [Bool.not_eq_true] at hq
      refine ⟨by omega, ⟨q2, ?_, hsup⟩, ?_⟩
      · have hki : k - i = (k - (i + 1)) + 1 := by omega
        rw [hki]
        simpa using hget
      · intro j hj q3 hget3
        cases j with
        | zero =>
          simp only [List.get?] at hget3
          injection hget3 with h3
          rw [← h3]
          exact hq
        | succ j2 =>
          refine hmin j2 (by omega) q3 ?_
          simpa using hget3

/-- Claim C10: `Manager::createDevice` fails with an error when the
instance is null, when zero physical devices are enumerated, or when
`physicalDeviceIndex` is not strictly below the device count; with an
empty `familyQueueIndices` it selects the lowest-index queue family
advertising compute support (the found family supports compute and every
lower-index family does not), failing with an error when no family
does. -/
theorem createDevice_bootstrap_checks (devs : List PhysicalDeviceModel)
    (idx : Nat) (fams : List Nat) :
    (createDeviceSelect false devs idx fams =
      Except.error "Kompute Manager instance is null") ∧
    (devs.length = 0 →
      createDeviceSelect true devs idx fams =
        Except.error "Failed to find GPUs with Vulkan support!") ∧
    (devs.length ≠ 0 → ¬ (idx < devs.length) →
      createDeviceSelect true devs idx fams =
        Except.error "There is no such physical index or device") ∧
    (idx < devs.length → fams = [] →
      (∀ q ∈ (devs.getD idx { queueFamilies := [] }).queueFamilies,
          q.computeSupport = false) →
      createDeviceSelect true devs idx fams =
        Except.error "Compute queue is not supported") ∧
    (∀ k, idx < devs.length → fams = [] →
      findComputeQueueFrom 0
          (devs.getD idx { queueFamilies := [] }).queueFamilies = some k →
      createDeviceSelect true devs idx fams = Except.ok [k] ∧
      (∃ q, (devs.getD idx { queueFamilies := [] }).queueFamilies.get? k
          = some q ∧ q.computeSupport = true) ∧
      (∀ j, j < k → ∀ q,
        (devs.getD idx { queueFamilies := [] }).queueFamilies.get? j
          = some q → q.computeSupport = false)) := by
  refine ⟨?_, ?_, ?_, ?_, ?_⟩
  · simp [createDeviceSelect]
  · intro h0
    simp [createDeviceSelect, h0]
  · intro hne hge
    have hgt : ¬ (devs.length > idx) := hge
    simp [createDeviceSelect, hne, hgt]
  · intro hlt hfams hnone
    have hne : ¬ (devs.length = 0) := by omega
    have hfind := findComputeFrom_eq_none _ hnone 0
    rw [List.getD_eq_getElem devs { queueFamilies := [] } hlt] at hfind
    subst hfams
    simp [createDeviceSelect, hne, hlt, hfind]
  · intro k hlt hfams hfind
    have hne : ¬ (devs.length = 0) := by omega
    obtain ⟨_, ⟨q, hget, hsup⟩, hmin⟩ :=
      findComputeFrom_some_spec _ 0 k hfind
    have hfind2 := hfind
    rw [List.getD_eq_getElem devs { queueFamilies := [] } hlt] at hfind2
    subst hfams
    refine ⟨by simp [createDeviceSelect, hne, hlt, hfind2], ⟨q, ?_, hsup⟩, ?_⟩
    · simpa using hget
    · intro j hj q2 hget2
      exact hmin j (by omega) q2 hget2

/-- Closed witness for claim C10: a null instance fails, an empty device
list fails, and with an empty queue-family request the lowest
compute-capable family (index 1) is selected. -/
theorem createDevice_bootstrap_checks_witness :
    createDeviceSelect false [{ queueFamilies := [] }] 0 [] =
      Except.error "Kompute Manager instance is null" ∧
    createDeviceSelect true ([] : List PhysicalDeviceModel) 0 [] =
      Except.error "Failed to find GPUs with Vulkan support!" ∧
    createDeviceSelect true
      [{ queueFamilies := [{ computeSupport := false },
        { computeSupport := true }] }] 0 [] = Except.ok [1] := by
  refine ⟨(createDevice_bootstrap_checks [{ queueFamilies := [] }] 0 []).1,
    (createDevice_bootstrap_checks [] 0 []).2.1 rfl, ?_⟩
  exact ((createDevice_bootstrap_checks
    [{ queueFamilies := [{ computeSupport := false },
      { computeSupport := true }] }] 0 []).2.2.2.2 1 (by decide) rfl
    (by rfl)).1
